import Mathlib

set_option maxRecDepth 4000

/-!
Verification development for the mqtt_client_cpp endpoint library
(`src/include/mqtt/endpoint.hpp`, `src/include/mqtt/client.hpp`).

Bytes are modelled as natural numbers (every byte taken from the wire is
reduced modulo 256 exactly where the C++ does `& 0xff` / `char` truncation),
byte strings as `List Nat`, and the socket as the list of frames written to
it, in order.  Functions that throw in C++ return `Except`.

Helper headers of the repository that are not under `src/`
(`fixed_header.hpp`, `remaining_length.hpp`, `connect_flags.hpp`,
`utf8encoded_strings.hpp`, `encoded_length.hpp`, `session_present.hpp`,
`qos.hpp`, `publish.hpp`, `connect_return_code.hpp`, `will.hpp`) are modelled
from the spec; each such definition carries a doc comment saying so.
-/

namespace Mqtt

/- Modelled from the spec: `mqtt/qos.hpp` is not under `src/`.
"QoS Level — 0: at_most_once, 1: at_least_once, 2: exactly_once". -/
namespace qos

def at_most_once : Nat := 0

def at_least_once : Nat := 1

def exactly_once : Nat := 2

end qos

/- Modelled from the spec: `mqtt/fixed_header.hpp` is not under `src/`.
"Control Packet Kind — enumerated: CONNECT, CONNACK, PUBLISH, PUBACK, PUBREC,
PUBREL, PUBCOMP, SUBSCRIBE, SUBACK, UNSUBSCRIBE, UNSUBACK, PINGREQ, PINGRESP,
DISCONNECT ... Encoded in the high nibble of the fixed header's first byte",
with the standard MQTT type codes 1..14. -/
namespace control_packet_type

def connect : Nat := 1

def connack : Nat := 2

def publish : Nat := 3

def puback : Nat := 4

def pubrec : Nat := 5

def pubrel : Nat := 6

def pubcomp : Nat := 7

def subscribe : Nat := 8

def suback : Nat := 9

def unsubscribe : Nat := 10

def unsuback : Nat := 11

def pingreq : Nat := 12

def pingresp : Nat := 13

def disconnect : Nat := 14

end control_packet_type

/-- Modelled from the spec: `mqtt/fixed_header.hpp` is not under `src/`.
The packet kind goes in the high nibble of the first byte, the flags in the
low nibble. -/
def make_fixed_header (ty flags : Nat) : Nat :=
  (ty <<< 4) ||| flags

/-- Modelled from the spec: `mqtt/fixed_header.hpp` is not under `src/`.
The kind of a received packet is the high nibble of the fixed header byte. -/
def get_control_packet_type (b : Nat) : Nat :=
  b >>> 4

/-- Modelled from the spec: `mqtt/remaining_length.hpp` is not under `src/`.
"Remaining Length — variable-length integer, 1-4 bytes, each byte's high bit
is a continuation flag, low 7 bits are data, little-endian base-128.
Encoders must emit minimum-length form."  Used by `send_buffer::finalize`. -/
def remaining_bytes (n : Nat) : List Nat :=
  if n < 128 then [n]
  else if n < 128 * 128 then [n % 128 + 128, n / 128]
  else if n < 128 * 128 * 128 then
    [n % 128 + 128, n / 128 % 128 + 128, n / (128 * 128)]
  else
    [n % 128 + 128, n / 128 % 128 + 128, n / (128 * 128) % 128 + 128,
      n / (128 * 128 * 128)]

/-- Modelled from the spec: `mqtt/encoded_length.hpp` is not under `src/`.
"UTF-8 string: 2-byte length prefix (big-endian)"; same framing for binary
blobs. -/
def encoded_length (s : List Nat) : List Nat :=
  [s.length / 256 % 256, s.length % 256]

/-- Modelled from the spec: `mqtt/utf8encoded_strings.hpp` is not under
`src/`. "Reject: length > 65535". -/
def utf8string.is_valid_length (s : List Nat) : Bool :=
  s.length ≤ 65535

/-- Modelled from the spec: `mqtt/utf8encoded_strings.hpp` is not under
`src/`.  "Reject: sequences containing U+0000 or control characters per MQTT
§1.5.4"; stated here on single-byte (ASCII-range) code units, which is all
the claims need. -/
def utf8string.is_valid_contents (s : List Nat) : Bool :=
  s.all (fun b => decide (0x1f < b ∧ b < 0x7f))

/-- Modelled from the spec: `mqtt/publish.hpp` is not under `src/`.
"For PUBLISH: DUP (bit 3), QoS (bits 2-1), RETAIN (bit 0)." -/
def publish.get_qos (b : Nat) : Nat :=
  b >>> 1 &&& 0b11

/-- Modelled from the spec: `mqtt/publish.hpp` is not under `src/`.
DUP is bit 3 of the fixed header byte. -/
def publish.is_dup (b : Nat) : Bool :=
  b.testBit 3

/-- Modelled from the spec: `mqtt/session_present.hpp` is not under `src/`.
"CONNACK first byte: session-present flag in bit 0". -/
def is_session_present (b : Nat) : Bool :=
  b.testBit 0

/-- Modelled from the spec: `mqtt/connect_return_code.hpp` is not under
`src/`.  CONNACK return code 0 is "accepted". -/
def connect_return_code.accepted : Nat := 0

/- Modelled from the spec: `mqtt/connect_flags.hpp` is not under `src/`.
MQTT v3.1.1 CONNECT flags byte: clean session bit 1, will flag bit 2,
will QoS bits 4-3, will retain bit 5, password bit 6, user name bit 7. -/
namespace connect_flags

def will_flag : Nat := 0b00000100

def will_retain : Nat := 0b00100000

def password_flag : Nat := 0b01000000

def user_name_flag : Nat := 0b10000000

def has_clean_session (b : Nat) : Bool := b.testBit 1

def has_will_flag (b : Nat) : Bool := b.testBit 2

def has_will_retain (b : Nat) : Bool := b.testBit 5

def has_password_flag (b : Nat) : Bool := b.testBit 6

def has_user_name_flag (b : Nat) : Bool := b.testBit 7

def will_qos (b : Nat) : Nat := b >>> 3 &&& 0b11

def set_will_qos (c q : Nat) : Nat := c ||| (q <<< 3)

end connect_flags

/-- Modelled from the spec: `mqtt/will.hpp` is not under `src/`.
"Will — (topic, payload, QoS, retain)", constructed in `handle_connect` as
`will(topic, message, retain, qos)`. -/
structure will where
  topic : List Nat
  message : List Nat
  retain : Bool
  qos : Nat
deriving DecidableEq, Repr

/-- `endpoint::make_uint16_t` (endpoint.hpp:1500-1504):
`((b1 & 0xff) << 8) | (b2 & 0xff)`. -/
def make_uint16_t (b1 b2 : Nat) : Nat :=
  (b1 % 256) * 256 + b2 % 256

/-- Errors thrown by the inbound packet handlers of `endpoint`. -/
inductive HandlerErr where
  | protocolError
  | remainingLengthError
deriving DecidableEq, Repr

/-- Errors thrown by the outbound send functions of `endpoint`. -/
inductive SendErr where
  | utf8stringLengthError
  | utf8stringContentsError
  | willMessageLengthError
  | passwordLengthError
deriving DecidableEq, Repr

/-- `endpoint::handle_remaining_length` (endpoint.hpp:890-925), written over
the stream of bytes still to be read.  The accumulator `rl` and the
multiplier start at `0` and `1` (set in `handle_control_packet_type`,
endpoint.hpp:874-876).  Per received byte the source adds
`(buf_ & 0b01111111) * remaining_length_multiplier_`, multiplies the
multiplier by 128, throws `remaining_length_error` when the multiplier
exceeds `128 * 128 * 128`, and continues while `buf_ & 0b10000000` is set.
On success it returns the decoded remaining length together with the unread
rest of the stream (the body bytes read next). -/
def handle_remaining_length : Nat → Nat → List Nat → Except HandlerErr (Nat × List Nat)
  | _, _, [] => Except.error HandlerErr.remainingLengthError
  | rl, mult, b :: rest =>
    let rl2 := rl + b % 128 * mult
    let mult2 := mult * 128
    if 128 * 128 * 128 < mult2 then Except.error HandlerErr.remainingLengthError
    else if b.testBit 7 then handle_remaining_length rl2 mult2 rest
    else Except.ok (rl2, rest)

/-- The arguments the connect handler `h_connect_` would receive
(endpoint.hpp:93-99, 1051). -/
structure ConnectFields where
  client_id : List Nat
  user_name : Option (List Nat)
  password : Option (List Nat)
  w : Option will
  clean_session : Bool
  keep_alive : Nat
deriving DecidableEq, Repr

/-- `endpoint::handle_connect` (endpoint.hpp:986-1052).  In the source the
protocol-name/level validation `if` (lines 988-995) has an EMPTY body `{}`
and is followed by an unconditional `throw protocol_error();` on line 996,
so the function throws `protocol_error` on every input; all the field
parsing below that line (lines 997-1051, including the connect-handler
invocation) is unreachable. -/
def handle_connect (remaining_length : Nat) (payload : List Nat) :
    Except HandlerErr ConnectFields :=
  let _validation_failed :=
    remaining_length < 10 ∨ payload.take 7 ≠ [0x00, 0x04, 77, 81, 84, 84, 0x04]
  Except.error HandlerErr.protocolError

/-- `endpoint::store` (endpoint.hpp:804-822): an in-flight entry.  `buf` is
the stored copy of the frame (`shared_ptr` buffer together with the
`ptr`/`size` window that `finalize` returned); entries emplaced without a
buffer (endpoint.hpp:1403, 1426, 1453, 1463) have `buf = none`. -/
structure store where
  packet_id : Nat
  expected_control_packet_type : Nat
  buf : Option (List Nat)
deriving DecidableEq, Repr

/-- The `mi_store` multi-index container (endpoint.hpp:827-855), modelled as
the list of entries in insertion (`sequenced`) order. -/
abbrev mi_store := List store

/-- `store_.emplace(...)`: the `ordered_unique` composite key
`(packet_id, expected_control_packet_type)` (endpoint.hpp:830-843) makes the
insertion a no-op when an entry with the same key is already present;
otherwise the entry joins the end of the sequence. -/
def mi_emplace (st : mi_store) (e : store) : mi_store :=
  if st.any (fun x =>
      x.packet_id == e.packet_id &&
      x.expected_control_packet_type == e.expected_control_packet_type)
  then st else st ++ [e]

/-- `idx.erase(r.first, r.second)` for
`r = idx.equal_range(std::make_tuple(packet_id, type))` on the
`tag_packet_id_type` index: drop every entry with that composite key. -/
def mi_erase_key (st : mi_store) (pid ty : Nat) : mi_store :=
  st.filter (fun x =>
    !(x.packet_id == pid && x.expected_control_packet_type == ty))

/-- The in-flight entries of `st` stored under packet id `pid`
(the `tag_packet_id` index, endpoint.hpp:844-850). -/
def entriesFor (st : mi_store) (pid : Nat) : mi_store :=
  st.filter (fun x => x.packet_id == pid)

/-- The arguments the publish handler `h_publish_` receives
(endpoint.hpp:130-133, 1108). -/
structure PublishArgs where
  fixed_header : Nat
  packet_id : Option Nat
  topic_name : List Nat
  contents : List Nat
deriving DecidableEq, Repr

/-- The observable state of an `endpoint<Socket>` (endpoint.hpp:1506-1539):
the connection flag, the configuration set before `connect()`, the packet-id
counter, the in-flight store, the frames written to the socket in order
(`wire`), and the handler invocations, each handler modelled as the list of
argument tuples it has been called with so far. -/
structure endpoint where
  connected : Bool
  clean_session : Bool
  client_id : List Nat
  will_ : Option will
  user_name : Option (List Nat)
  password : Option (List Nat)
  packet_id_master : Nat
  store : mi_store
  wire : List (List Nat)
  h_publish_log : List PublishArgs
  h_puback_log : List Nat
  h_pubrec_log : List Nat
  h_pubcomp_log : List Nat
  h_connack_log : List (Bool × Nat)
deriving DecidableEq, Repr

/-- A default-constructed endpoint (endpoint.hpp:738-742): not connected,
clean session false, `packet_id_master_` zero, and nothing stored, written
or handled yet. -/
def endpoint0 : endpoint :=
  { connected := false
    clean_session := false
    client_id := []
    will_ := none
    user_name := none
    password := none
    packet_id_master := 0
    store := []
    wire := []
    h_publish_log := []
    h_puback_log := []
    h_pubrec_log := []
    h_pubcomp_log := []
    h_connack_log := [] }

/-- `send_buffer::finalize` (endpoint.hpp:790-798): the window handed to
`as::write` is the fixed-header byte, the remaining-length bytes of the body
size, then the body. -/
def finalize (fixed_header : Nat) (body : List Nat) : List Nat :=
  fixed_header :: remaining_bytes body.length ++ body

/-- The PUBLISH frame built by `endpoint::send_publish`
(endpoint.hpp:1305-1339): topic with its 2-byte length prefix, the packet id
when QoS is 1 or 2, then the payload; flags are RETAIN in bit 0 and QoS in
bits 2-1, with DUP (bit 3) set only in the copy kept for the store
(endpoint.hpp:1329-1330). -/
def publish_frame (dup : Bool) (topic_name : List Nat) (q : Nat)
    (retain : Bool) (packet_id : Nat) (payload : List Nat) : List Nat :=
  let body :=
    encoded_length topic_name ++ topic_name ++
    (if q = qos.at_least_once ∨ q = qos.exactly_once then
      [packet_id >>> 8 % 256, packet_id % 256] else []) ++
    payload
  let flags := (if retain then 0b00000001 else 0) ||| q <<< 1 |||
    (if dup then 0b00001000 else 0)
  finalize (make_fixed_header control_packet_type.publish flags) body

/-- `endpoint::send_publish` (endpoint.hpp:1305-1339): validate the topic,
write the frame, and for QoS above 0 store a copy with the DUP bit set under
the expected acknowledgement type (`puback` for QoS 1, `pubrec` for QoS 2). -/
def send_publish (e : endpoint) (topic_name : List Nat) (q : Nat)
    (retain : Bool) (packet_id : Nat) (payload : List Nat) :
    Except SendErr endpoint :=
  if ¬ utf8string.is_valid_length topic_name then
    Except.error SendErr.utf8stringLengthError
  else if ¬ utf8string.is_valid_contents topic_name then
    Except.error SendErr.utf8stringContentsError
  else
    let e1 := { e with
      wire := e.wire ++ [publish_frame false topic_name q retain packet_id payload] }
    if 0 < q then
      Except.ok { e1 with
        store := mi_emplace e1.store
          ⟨packet_id,
           if q = qos.at_least_once then control_packet_type.puback
           else control_packet_type.pubrec,
           some (publish_frame true topic_name q retain packet_id payload)⟩ }
    else Except.ok e1

/-- The two-byte packet-id body `packet_id >> 8`, `packet_id & 0xff` pushed
by the PUBACK/PUBREC/PUBREL/PUBCOMP/SUBACK/UNSUBACK senders. -/
def packet_id_bytes (packet_id : Nat) : List Nat :=
  [packet_id >>> 8 % 256, packet_id % 256]

/-- The frame written by `endpoint::send_puback` (endpoint.hpp:1341-1347),
flags `0b0000`. -/
def puback_frame (packet_id : Nat) : List Nat :=
  finalize (make_fixed_header control_packet_type.puback 0b0000)
    (packet_id_bytes packet_id)

/-- The frame written by `endpoint::send_pubrec` (endpoint.hpp:1349-1355),
flags `0b0000`. -/
def pubrec_frame (packet_id : Nat) : List Nat :=
  finalize (make_fixed_header control_packet_type.pubrec 0b0000)
    (packet_id_bytes packet_id)

/-- The frame written by `endpoint::send_pubrel` (endpoint.hpp:1357-1369),
flags `0b0010`. -/
def pubrel_frame (packet_id : Nat) : List Nat :=
  finalize (make_fixed_header control_packet_type.pubrel 0b0010)
    (packet_id_bytes packet_id)

/-- The frame written by `endpoint::send_pubcomp` (endpoint.hpp:1371-1377),
flags `0b0000`. -/
def pubcomp_frame (packet_id : Nat) : List Nat :=
  finalize (make_fixed_header control_packet_type.pubcomp 0b0000)
    (packet_id_bytes packet_id)

/-- The frame written by `endpoint::send_unsuback` (endpoint.hpp:1457-1465):
the source passes flags `0b0010` to `make_fixed_header` for UNSUBACK. -/
def unsuback_frame (packet_id : Nat) : List Nat :=
  finalize (make_fixed_header control_packet_type.unsuback 0b0010)
    (packet_id_bytes packet_id)

/-- The frame written by `endpoint::send_pingreq` (endpoint.hpp:1467-1471),
flags `0b0000`, empty body. -/
def pingreq_frame : List Nat :=
  finalize (make_fixed_header control_packet_type.pingreq 0b0000) []

/-- `endpoint::send_puback`: write the PUBACK frame. -/
def send_puback (e : endpoint) (packet_id : Nat) : endpoint :=
  { e with wire := e.wire ++ [puback_frame packet_id] }

/-- `endpoint::send_pubrec`: write the PUBREC frame. -/
def send_pubrec (e : endpoint) (packet_id : Nat) : endpoint :=
  { e with wire := e.wire ++ [pubrec_frame packet_id] }

/-- `endpoint::send_pubrel` (endpoint.hpp:1357-1369): write the PUBREL frame
and store it under expected type `pubcomp`, keeping the written bytes. -/
def send_pubrel (e : endpoint) (packet_id : Nat) : endpoint :=
  { e with
    wire := e.wire ++ [pubrel_frame packet_id]
    store := mi_emplace e.store
      ⟨packet_id, control_packet_type.pubcomp, some (pubrel_frame packet_id)⟩ }

/-- `endpoint::send_pubcomp`: write the PUBCOMP frame. -/
def send_pubcomp (e : endpoint) (packet_id : Nat) : endpoint :=
  { e with wire := e.wire ++ [pubcomp_frame packet_id] }

/-- The SUBSCRIBE frame built by `endpoint::send_subscribe`
(endpoint.hpp:1389-1405): packet id then `(length-prefixed topic, qos)` per
entry, flags `0b0010`. -/
def subscribe_frame (packet_id : Nat) (params : List (List Nat × Nat)) :
    List Nat :=
  finalize (make_fixed_header control_packet_type.subscribe 0b0010)
    (packet_id_bytes packet_id ++
      (params.map (fun p => encoded_length p.1 ++ p.1 ++ [p.2])).flatten)

/-- `endpoint::send_subscribe` (endpoint.hpp:1389-1405): validate each
topic, store `(packet_id, suback)` with no buffer, write the frame. -/
def send_subscribe (e : endpoint) (packet_id : Nat)
    (params : List (List Nat × Nat)) : Except SendErr endpoint :=
  if ¬ params.all (fun p => utf8string.is_valid_length p.1) then
    Except.error SendErr.utf8stringLengthError
  else if ¬ params.all (fun p => utf8string.is_valid_contents p.1) then
    Except.error SendErr.utf8stringContentsError
  else
    Except.ok { e with
      store := mi_emplace e.store ⟨packet_id, control_packet_type.suback, none⟩
      wire := e.wire ++ [subscribe_frame packet_id params] }

/-- The UNSUBSCRIBE frame built by `endpoint::send_unsubscribe`
(endpoint.hpp:1440-1455): packet id then length-prefixed topics, flags
`0b0010`. -/
def unsubscribe_frame (packet_id : Nat) (params : List (List Nat)) :
    List Nat :=
  finalize (make_fixed_header control_packet_type.unsubscribe 0b0010)
    (packet_id_bytes packet_id ++
      (params.map (fun t => encoded_length t ++ t)).flatten)

/-- `endpoint::send_unsubscribe` (endpoint.hpp:1440-1455): validate each
topic, store `(packet_id, unsuback)` with no buffer, write the frame. -/
def send_unsubscribe (e : endpoint) (packet_id : Nat)
    (params : List (List Nat)) : Except SendErr endpoint :=
  if ¬ params.all (fun t => utf8string.is_valid_length t) then
    Except.error SendErr.utf8stringLengthError
  else if ¬ params.all (fun t => utf8string.is_valid_contents t) then
    Except.error SendErr.utf8stringContentsError
  else
    Except.ok { e with
      store := mi_emplace e.store ⟨packet_id, control_packet_type.unsuback, none⟩
      wire := e.wire ++ [unsubscribe_frame packet_id params] }

/-- The CONNECT body built by `endpoint::send_connect`
(endpoint.hpp:1231-1295): the fixed 7 protocol-name/level bytes, the connect
flags byte (clean session bit plus the will/user-name/password bits patched
in as those fields are appended), the keep-alive, the length-prefixed client
id, then the optional will topic/message, user name and password. -/
def connect_body (clean_session : Bool) (client_id : List Nat)
    (w : Option will) (user_name password : Option (List Nat))
    (keep_alive_sec : Nat) : List Nat :=
  let flags0 : Nat := if clean_session then 0b00000010 else 0
  let flags1 := match w with
    | some wl =>
      connect_flags.set_will_qos
        (flags0 ||| connect_flags.will_flag |||
          (if wl.retain then connect_flags.will_retain else 0))
        wl.qos
    | none => flags0
  let flags2 := if user_name.isSome then flags1 ||| connect_flags.user_name_flag
    else flags1
  let flags3 := if password.isSome then flags2 ||| connect_flags.password_flag
    else flags2
  [0x00, 0x04, 77, 81, 84, 84, 0x04, flags3,
    keep_alive_sec >>> 8 % 256, keep_alive_sec % 256] ++
  encoded_length client_id ++ client_id ++
  (match w with
   | some wl => encoded_length wl.topic ++ wl.topic ++
       encoded_length wl.message ++ wl.message
   | none => []) ++
  (match user_name with
   | some s => encoded_length s ++ s
   | none => []) ++
  (match password with
   | some s => encoded_length s ++ s
   | none => [])

/-- `endpoint::send_connect` (endpoint.hpp:1231-1295): validate the client
id, will topic and message, user name and password exactly as the source
does, then write the finalized CONNECT frame (flags `0`). -/
def send_connect (e : endpoint) (keep_alive_sec : Nat) :
    Except SendErr endpoint :=
  if ¬ utf8string.is_valid_length e.client_id then
    Except.error SendErr.utf8stringLengthError
  else if ¬ utf8string.is_valid_contents e.client_id then
    Except.error SendErr.utf8stringContentsError
  else if ¬ (e.will_.all fun wl => utf8string.is_valid_length wl.topic) then
    Except.error SendErr.utf8stringLengthError
  else if ¬ (e.will_.all fun wl => utf8string.is_valid_contents wl.topic) then
    Except.error SendErr.utf8stringContentsError
  else if ¬ (e.will_.all fun wl => decide (wl.message.length ≤ 0xffff)) then
    Except.error SendErr.willMessageLengthError
  else if ¬ (e.user_name.all fun s => utf8string.is_valid_length s) then
    Except.error SendErr.utf8stringLengthError
  else if ¬ (e.user_name.all fun s => utf8string.is_valid_contents s) then
    Except.error SendErr.utf8stringContentsError
  else if ¬ (e.password.all fun s => decide (s.length ≤ 0xffff)) then
    Except.error SendErr.passwordLengthError
  else
    Except.ok { e with
      wire := e.wire ++
        [finalize (make_fixed_header control_packet_type.connect 0)
          (connect_body e.clean_session e.client_id e.will_ e.user_name
            e.password keep_alive_sec)] }

/-- `endpoint::handle_connack` (endpoint.hpp:1054-1077).  On return code
"accepted": with the clean-session flag the store is cleared; otherwise the
`tag_seq` index is walked in insertion order, every entry holding a buffer
is rewritten to the socket and kept, and every entry without one is erased.
Then the connack handler is invoked with the session-present bit and the
return code. -/
def handle_connack (e : endpoint) (remaining_length : Nat)
    (payload : List Nat) : Except HandlerErr endpoint :=
  if remaining_length ≠ 2 then Except.error HandlerErr.remainingLengthError
  else
    let e1 :=
      if payload.getD 1 0 % 256 = connect_return_code.accepted then
        if e.clean_session then { e with store := [] }
        else
          { e with
            wire := e.wire ++ e.store.filterMap (fun s => s.buf)
            store := e.store.filter (fun s => s.buf.isSome) }
      else e
    let session_present := is_session_present (payload.getD 0 0)
    Except.ok { e1 with
      h_connack_log := e1.h_connack_log ++
        [(session_present, payload.getD 1 0 % 256)] }

/-- `endpoint::handle_publish` (endpoint.hpp:1079-1109): length checks,
topic, then — switching on the QoS bits of the fixed header — no packet id
(QoS 0), packet id plus an immediate PUBACK (QoS 1), or packet id plus an
immediate PUBREC (QoS 2); the rest of the payload is the contents and the
publish handler is invoked unconditionally. -/
def handle_publish (e : endpoint) (fixed_header : Nat)
    (remaining_length : Nat) (payload : List Nat) :
    Except HandlerErr endpoint :=
  if remaining_length < 2 then Except.error HandlerErr.remainingLengthError
  else
    let topic_name_length := make_uint16_t (payload.getD 0 0) (payload.getD 1 0)
    if remaining_length < 2 + topic_name_length then
      Except.error HandlerErr.remainingLengthError
    else
      let topic_name := (payload.drop 2).take topic_name_length
      let i := 2 + topic_name_length
      let q := publish.get_qos fixed_header
      if q = qos.at_most_once then
        Except.ok { e with h_publish_log := e.h_publish_log ++
          [⟨fixed_header, none, topic_name, payload.drop i⟩] }
      else if q = qos.at_least_once then
        if remaining_length < i + 2 then
          Except.error HandlerErr.remainingLengthError
        else
          let packet_id := make_uint16_t (payload.getD i 0) (payload.getD (i+1) 0)
          let e1 := send_puback e packet_id
          Except.ok { e1 with h_publish_log := e1.h_publish_log ++
            [⟨fixed_header, some packet_id, topic_name, payload.drop (i+2)⟩] }
      else if q = qos.exactly_once then
        if remaining_length < i + 2 then
          Except.error HandlerErr.remainingLengthError
        else
          let packet_id := make_uint16_t (payload.getD i 0) (payload.getD (i+1) 0)
          let e1 := send_pubrec e packet_id
          Except.ok { e1 with h_publish_log := e1.h_publish_log ++
            [⟨fixed_header, some packet_id, topic_name, payload.drop (i+2)⟩] }
      else
        Except.ok { e with h_publish_log := e.h_publish_log ++
          [⟨fixed_header, none, topic_name, payload.drop i⟩] }

/-- `endpoint::handle_puback` (endpoint.hpp:1111-1118): erase the entry
keyed `(packet_id, puback)` and invoke the puback handler. -/
def handle_puback (e : endpoint) (remaining_length : Nat)
    (payload : List Nat) : Except HandlerErr endpoint :=
  if remaining_length ≠ 2 then Except.error HandlerErr.remainingLengthError
  else
    let packet_id := make_uint16_t (payload.getD 0 0) (payload.getD 1 0)
    Except.ok { e with
      store := mi_erase_key e.store packet_id control_packet_type.puback
      h_puback_log := e.h_puback_log ++ [packet_id] }

/-- `endpoint::handle_pubrec` (endpoint.hpp:1120-1128): erase the entry
keyed `(packet_id, pubrec)`, send PUBREL (which stores the PUBREL frame
under `(packet_id, pubcomp)`), and invoke the pubrec handler. -/
def handle_pubrec (e : endpoint) (remaining_length : Nat)
    (payload : List Nat) : Except HandlerErr endpoint :=
  if remaining_length ≠ 2 then Except.error HandlerErr.remainingLengthError
  else
    let packet_id := make_uint16_t (payload.getD 0 0) (payload.getD 1 0)
    let e1 := { e with
      store := mi_erase_key e.store packet_id control_packet_type.pubrec }
    let e2 := send_pubrel e1 packet_id
    Except.ok { e2 with h_pubrec_log := e2.h_pubrec_log ++ [packet_id] }

/-- `endpoint::handle_pubrel` (endpoint.hpp:1130-1134): reply PUBCOMP.
(The source neither consults nor updates any set of received QoS 2 ids, and
does not invoke `h_pubrel_`.) -/
def handle_pubrel (e : endpoint) (remaining_length : Nat)
    (payload : List Nat) : Except HandlerErr endpoint :=
  if remaining_length ≠ 2 then Except.error HandlerErr.remainingLengthError
  else
    let packet_id := make_uint16_t (payload.getD 0 0) (payload.getD 1 0)
    Except.ok (send_pubcomp e packet_id)

/-- `endpoint::handle_pubcomp` (endpoint.hpp:1136-1143): erase the entry
keyed `(packet_id, pubcomp)` and invoke the pubcomp handler. -/
def handle_pubcomp (e : endpoint) (remaining_length : Nat)
    (payload : List Nat) : Except HandlerErr endpoint :=
  if remaining_length ≠ 2 then Except.error HandlerErr.remainingLengthError
  else
    let packet_id := make_uint16_t (payload.getD 0 0) (payload.getD 1 0)
    Except.ok { e with
      store := mi_erase_key e.store packet_id control_packet_type.pubcomp
      h_pubcomp_log := e.h_pubcomp_log ++ [packet_id] }

/-- `endpoint::is_unique_packet_id` (endpoint.hpp:1493-1498): a packet id is
usable iff it is nonzero and the `tag_packet_id` index holds no entry for
it. -/
def is_unique_packet_id (st : mi_store) (packet_id : Nat) : Bool :=
  if packet_id = 0 then false
  else st.all (fun x => x.packet_id != packet_id)

/-- The loop of `endpoint::create_unique_packet_id` (endpoint.hpp:1486-1491)
with explicit fuel: `do { ++packet_id_master_; } while
(!is_unique_packet_id(packet_id_master_));` — the 16-bit counter wraps
modulo 65536 on increment.  `none` means the fuel ran out, i.e. the C++
loop has not terminated within that many iterations. -/
def create_loop (st : mi_store) (master : Nat) : Nat → Option Nat
  | 0 => none
  | fuel + 1 =>
    let m := (master + 1) % 65536
    if is_unique_packet_id st m then some m else create_loop st m fuel

/-- `endpoint::create_unique_packet_id` with fuel 65536, one full sweep of
the 16-bit counter — enough to visit every candidate id exactly once. -/
def create_unique_packet_id (st : mi_store) (master : Nat) : Option Nat :=
  create_loop st master 65536

/-- `endpoint::publish` with a manual packet id (endpoint.hpp:668-679):
refuse, publishing nothing, unless the id passes `is_unique_packet_id`. -/
def publish_manual (e : endpoint) (packet_id : Nat) (topic_name : List Nat)
    (contents : List Nat) (q : Nat) (retain : Bool) :
    Except SendErr (Bool × endpoint) :=
  if is_unique_packet_id e.store packet_id then
    (send_publish e topic_name q retain packet_id contents).map
      (fun e1 => (true, e1))
  else Except.ok (false, e)

/-- `endpoint::subscribe` with a manual packet id (endpoint.hpp:696-708):
refuse, subscribing to nothing, unless the id passes
`is_unique_packet_id`. -/
def subscribe_manual (e : endpoint) (packet_id : Nat)
    (params : List (List Nat × Nat)) : Except SendErr (Bool × endpoint) :=
  if is_unique_packet_id e.store packet_id then
    (send_subscribe e packet_id params).map (fun e1 => (true, e1))
  else Except.ok (false, e)

/-- `endpoint::unsubscribe` with a manual packet id (endpoint.hpp:723-735):
refuse, unsubscribing from nothing, unless the id passes
`is_unique_packet_id`. -/
def unsubscribe_manual (e : endpoint) (packet_id : Nat)
    (params : List (List Nat)) : Except SendErr (Bool × endpoint) :=
  if is_unique_packet_id e.store packet_id then
    (send_unsubscribe e packet_id params).map (fun e1 => (true, e1))
  else Except.ok (false, e)

/-- An inbound packet fed to the endpoint by the frame reader: the fixed
header byte, the decoded remaining length and the body, as
`handle_payload` receives them (endpoint.hpp:927-976). -/
inductive RecvEvent where
  | publishQos2 (packet_id : Nat) (topic_name contents : List Nat)
  | pubrel (packet_id : Nat)
deriving DecidableEq, Repr

/-- The frame `(fixed_header, remaining_length, payload)` carried by a
receive event: a PUBLISH with QoS 2 flags (`0b0100`), or a PUBREL. -/
def recv_frame : RecvEvent → Nat × Nat × List Nat
  | RecvEvent.publishQos2 packet_id topic_name contents =>
    let body := encoded_length topic_name ++ topic_name ++
      packet_id_bytes packet_id ++ contents
    (make_fixed_header control_packet_type.publish (qos.exactly_once <<< 1),
      body.length, body)
  | RecvEvent.pubrel packet_id =>
    (make_fixed_header control_packet_type.pubrel 0b0010, 2,
      packet_id_bytes packet_id)

/-- The dispatch of `endpoint::handle_payload` (endpoint.hpp:927-976) on the
high nibble of the fixed header, restricted to the two packet kinds the
receive events carry (type 3 = PUBLISH, type 6 = PUBREL). -/
def handle_payload (e : endpoint) (fixed_header remaining_length : Nat)
    (payload : List Nat) : Except HandlerErr endpoint :=
  if get_control_packet_type fixed_header = control_packet_type.publish then
    handle_publish e fixed_header remaining_length payload
  else if get_control_packet_type fixed_header = control_packet_type.pubrel then
    handle_pubrel e remaining_length payload
  else Except.ok e

/-- Feed a sequence of received frames through the endpoint's dispatch,
stopping at the first protocol error (which in the source unwinds out of
the read loop). -/
def run_receiver (e : endpoint) : List RecvEvent → Except HandlerErr endpoint
  | [] => Except.ok e
  | ev :: rest =>
    match recv_frame ev with
    | (fh, rl, payload) =>
      match handle_payload e fh rl payload with
      | Except.ok e1 => run_receiver e1 rest
      | Except.error err => Except.error err

/-- Well-formedness of a receive event: packet ids fit in 16 bits and the
topic length fits its 2-byte prefix. -/
def RecvEvent.wf : RecvEvent → Prop
  | RecvEvent.publishQos2 packet_id topic_name _ =>
    packet_id < 65536 ∧ topic_name.length < 65536
  | RecvEvent.pubrel packet_id => packet_id < 65536

instance : DecidablePred RecvEvent.wf := by
  intro ev
  cases ev <;> simp [RecvEvent.wf] <;> infer_instance

/-- The publish-handler invocation a receive event produces (PUBLISH frames
only): fixed header `0x34` (type 3, QoS 2 flags), the packet id, topic and
contents. -/
def deliveryOf : RecvEvent → Option PublishArgs
  | RecvEvent.publishQos2 packet_id topic_name contents =>
    some ⟨make_fixed_header control_packet_type.publish
        (qos.exactly_once <<< 1),
      some packet_id, topic_name, contents⟩
  | RecvEvent.pubrel _ => none

/-- The reply frame a receive event produces: PUBREC for a QoS 2 PUBLISH,
PUBCOMP for a PUBREL. -/
def replyOf : RecvEvent → List Nat
  | RecvEvent.publishQos2 packet_id _ _ => pubrec_frame packet_id
  | RecvEvent.pubrel packet_id => pubcomp_frame packet_id

/-- The observable state of a `client<Socket>` (client.hpp:280-292) relevant
to keep-alive: the connection flag, `ping_duration_ms_`, the armed deadline
of the asio timer `tim_` (`none` when not armed), the current time in
milliseconds, and the frames written to the socket. -/
structure client where
  connected : Bool
  keep_alive_sec : Nat
  ping_duration_ms : Nat
  tim : Option Nat
  now : Nat
  wire : List (List Nat)
deriving DecidableEq, Repr

/-- The connect-completion lambda of `client::connect` (client.hpp:150-164):
on success set the connection flag and, when `ping_duration_ms_` is nonzero,
arm the timer `ping_duration_ms_` from now. -/
def client_connect (c : client) : client :=
  let c1 := { c with connected := true }
  if c1.ping_duration_ms ≠ 0 then
    { c1 with tim := some (c1.now + c1.ping_duration_ms) }
  else c1

/-- `client::handle_timer` (client.hpp:257-267): when the wait ended without
error (`ec = false`), send exactly one PINGREQ and re-arm the timer
`ping_duration_ms_` from now; on error (cancellation) do nothing. -/
def handle_timer (c : client) (ec : Bool) : client :=
  if ec then c
  else
    { c with
      wire := c.wire ++ [pingreq_frame]
      tim := some (c.now + c.ping_duration_ms) }

/-- An outbound packet sent through the endpoint while connected.  The
`endpoint<Socket>` send functions (endpoint.hpp:1231-1483) only write to the
socket and update the in-flight store; none of them can touch the client's
timer `tim_`, which is private to `client<Socket>` (client.hpp:282) and is
referenced only by `connect`, `disconnect`, `set_keep_alive_sec_ping_ms`,
`handle_timer`, `handle_close` and `handle_error`.  Hence a send appends its
frame to the wire and leaves the timer deadline unchanged. -/
def client_send (c : client) (frame : List Nat) : client :=
  { c with wire := c.wire ++ [frame] }

/-- A store holding an entry for every nonzero 16-bit packet id; used to
exercise the allocator when no id is free. -/
def full_store : mi_store :=
  (List.range' 1 65535).map (fun i => ⟨i, 0, none⟩)

theorem make_uint16_t_packet_id_bytes (packet_id : Nat) (h : packet_id < 65536) :
    make_uint16_t ((packet_id_bytes packet_id).getD 0 0)
      ((packet_id_bytes packet_id).getD 1 0) = packet_id := by
  simp [packet_id_bytes, make_uint16_t, Nat.shiftRight_eq_div_pow]
  omega

theorem is_unique_packet_id_iff (st : mi_store) (packet_id : Nat) :
    is_unique_packet_id st packet_id = true ↔
      packet_id ≠ 0 ∧ ∀ x ∈ st, x.packet_id ≠ packet_id := by
  unfold is_unique_packet_id
  split
  · simp [*]
  · simp [List.all_eq_true, *]

theorem entriesFor_append (st1 st2 : mi_store) (packet_id : Nat) :
    entriesFor (st1 ++ st2) packet_id =
      entriesFor st1 packet_id ++ entriesFor st2 packet_id :=
  List.filter_append _ _

theorem entriesFor_eq_nil (st : mi_store) (packet_id : Nat)
    (h : ∀ x ∈ st, x.packet_id ≠ packet_id) : entriesFor st packet_id = [] := by
  rw [entriesFor, List.filter_eq_nil_iff]
  intro x hx
  simp [h x hx]

theorem mi_emplace_of_fresh (st : mi_store) (e : store)
    (h : ∀ x ∈ st, x.packet_id ≠ e.packet_id) :
    mi_emplace st e = st ++ [e] := by
  rw [mi_emplace, if_neg]
  intro hany
  rw [List.any_eq_true] at hany
  obtain ⟨x, hx, hkey⟩ := hany
  exact h x hx (by simpa using (Bool.and_eq_true_iff.mp hkey).1)

theorem mi_erase_key_of_fresh (st : mi_store) (packet_id ty : Nat)
    (h : ∀ x ∈ st, x.packet_id ≠ packet_id) :
    mi_erase_key st packet_id ty = st := by
  rw [mi_erase_key, List.filter_eq_self]
  intro x hx
  simp [h x hx]

theorem mi_erase_key_append (st1 st2 : mi_store) (packet_id ty : Nat) :
    mi_erase_key (st1 ++ st2) packet_id ty =
      mi_erase_key st1 packet_id ty ++ mi_erase_key st2 packet_id ty :=
  List.filter_append _ _

theorem create_loop_sound (st : mi_store) :
    ∀ fuel master id : Nat, create_loop st master fuel = some id →
      is_unique_packet_id st id = true := by
  intro fuel
  induction fuel with
  | zero => intro master id h; simp [create_loop] at h
  | succ n ih =>
    intro master id h
    rw [create_loop] at h
    split at h
    · cases h
      assumption
    · exact ih _ _ h

theorem create_loop_finds (st : mi_store) :
    ∀ fuel master k : Nat, 1 ≤ k → k ≤ fuel →
      is_unique_packet_id st ((master + k) % 65536) = true →
      (create_loop st master fuel).isSome := by
  intro fuel
  induction fuel with
  | zero => intro master k h1 h2 _; omega
  | succ n ih =>
    intro master k h1 h2 hu
    rw [create_loop]
    split
    · rfl
    · rename_i hfail
      have hk : k ≠ 1 := by
        intro he
        subst he
        exact hfail hu
      have harith : ((master + 1) % 65536 + (k - 1)) % 65536 =
          (master + k) % 65536 := by
        rw [Nat.mod_add_mod]
        congr 1
        omega
      exact ih ((master + 1) % 65536) (k - 1) (by omega) (by omega)
        (by rw [harith]; exact hu)

theorem handle_publish_qos2 (e : endpoint) (packet_id : Nat)
    (topic_name contents : List Nat) (hpid : packet_id < 65536)
    (htop : topic_name.length < 65536) :
    handle_publish e
      (make_fixed_header control_packet_type.publish (qos.exactly_once <<< 1))
      (encoded_length topic_name ++ topic_name ++ packet_id_bytes packet_id ++
        contents).length
      (encoded_length topic_name ++ topic_name ++ packet_id_bytes packet_id ++
        contents) =
      Except.ok { e with
        wire := e.wire ++ [pubrec_frame packet_id]
        h_publish_log := e.h_publish_log ++
          [⟨make_fixed_header control_packet_type.publish
              (qos.exactly_once <<< 1),
            some packet_id, topic_name, contents⟩] } := by
  have hlen : (encoded_length topic_name ++ topic_name ++
      packet_id_bytes packet_id ++ contents).length =
      2 + topic_name.length + 2 + contents.length := by
    simp [encoded_length, packet_id_bytes]
    omega
  have hget0 : (encoded_length topic_name ++ topic_name ++
      packet_id_bytes packet_id ++ contents).getD 0 0 =
      topic_name.length / 256 % 256 := by
    simp [encoded_length]
  have hget1 : (encoded_length topic_name ++ topic_name ++
      packet_id_bytes packet_id ++ contents).getD 1 0 =
      topic_name.length % 256 := by
    simp [encoded_length]
  have htlen : make_uint16_t (topic_name.length / 256 % 256)
      (topic_name.length % 256) = topic_name.length := by
    simp [make_uint16_t]
    omega
  have htopic : ((encoded_length topic_name ++ topic_name ++
      packet_id_bytes packet_id ++ contents).drop 2).take topic_name.length =
      topic_name := by
    have hre : encoded_length topic_name ++ topic_name ++
        packet_id_bytes packet_id ++ contents =
        encoded_length topic_name ++
          (topic_name ++ (packet_id_bytes packet_id ++ contents)) := by
      simp [List.append_assoc]
    rw [hre]
    have h2 : (encoded_length topic_name).length = 2 := rfl
    rw [← h2, List.drop_left, List.take_left]
  have hgetp0 : (encoded_length topic_name ++ topic_name ++
      packet_id_bytes packet_id ++ contents).getD
        (2 + topic_name.length) 0 = (packet_id_bytes packet_id).getD 0 0 := by
    have hre : encoded_length topic_name ++ topic_name ++
        packet_id_bytes packet_id ++ contents =
        (encoded_length topic_name ++ topic_name) ++
          (packet_id_bytes packet_id ++ contents) := by
      simp [List.append_assoc]
    rw [hre, List.getD_append_right _ _ _ _ (by simp [encoded_length]; omega)]
    have h0 : 2 + topic_name.length -
        (encoded_length topic_name ++ topic_name).length = 0 := by
      simp [encoded_length]
      omega
    rw [h0, List.getD_append _ _ _ _ (by simp [packet_id_bytes])]
  have hgetp1 : (encoded_length topic_name ++ topic_name ++
      packet_id_bytes packet_id ++ contents).getD
        (2 + topic_name.length + 1) 0 =
      (packet_id_bytes packet_id).getD 1 0 := by
    have hre : encoded_length topic_name ++ topic_name ++
        packet_id_bytes packet_id ++ contents =
        (encoded_length topic_name ++ topic_name) ++
          (packet_id_bytes packet_id ++ contents) := by
      simp [List.append_assoc]
    rw [hre, List.getD_append_right _ _ _ _ (by simp [encoded_length]; omega)]
    have h1 : 2 + topic_name.length + 1 -
        (encoded_length topic_name ++ topic_name).length = 1 := by
      simp [encoded_length]
      omega
    rw [h1, List.getD_append _ _ _ _ (by simp [packet_id_bytes])]
  have hdropc : (encoded_length topic_name ++ topic_name ++
      packet_id_bytes packet_id ++ contents).drop
        (2 + topic_name.length + 2) = contents := by
    have hre : encoded_length topic_name ++ topic_name ++
        packet_id_bytes packet_id ++ contents =
        (encoded_length topic_name ++ topic_name ++
          packet_id_bytes packet_id) ++ contents := rfl
    have hplen : (encoded_length topic_name ++ topic_name ++
        packet_id_bytes packet_id).length = 2 + topic_name.length + 2 := by
      simp [encoded_length, packet_id_bytes]
      omega
    rw [hre, ← hplen, List.drop_left]
  have hq : publish.get_qos
      (make_fixed_header control_packet_type.publish
        (qos.exactly_once <<< 1)) = 2 := rfl
  rw [handle_publish, hget0, hget1, htlen, hlen, if_neg (by omega),
    if_neg (by omega), hq]
  rw [if_neg (by decide : ¬ (2 : Nat) = qos.at_most_once),
    if_neg (by decide : ¬ (2 : Nat) = qos.at_least_once),
    if_pos (by decide : (2 : Nat) = qos.exactly_once),
    if_neg (by omega)]
  rw [hgetp0, hgetp1, make_uint16_t_packet_id_bytes packet_id hpid, htopic,
    hdropc]
  rfl

theorem handle_pubrel_pubcomp (e : endpoint) (packet_id : Nat)
    (hpid : packet_id < 65536) :
    handle_pubrel e 2 (packet_id_bytes packet_id) =
      Except.ok { e with wire := e.wire ++ [pubcomp_frame packet_id] } := by
  simp only [handle_pubrel]
  rw [if_neg (by omega), make_uint16_t_packet_id_bytes packet_id hpid]
  rfl

/-- C1: the claim says `handle_connect` raises a protocol error exactly when
the protocol-name/level bytes mismatch (or the body is shorter than 10
bytes).  The code raises `protocol_error` on every input: here is a CONNECT
body of remaining length 12 that starts with the exact bytes
`00 04 M Q T T 04` (clean session, keep-alive 0, empty client id) and is
still rejected. -/
theorem claim_C1_bug :
    (¬ (12 < 10) ∧
      [0, 4, 77, 81, 84, 84, 4, 2, 0, 0, 0, 0].take 7 =
        [0x00, 0x04, 77, 81, 84, 84, 0x04]) ∧
    handle_connect 12 [0, 4, 77, 81, 84, 84, 4, 2, 0, 0, 0, 0] =
      Except.error HandlerErr.protocolError :=
  ⟨⟨by omega, rfl⟩, rfl⟩

/-- C2: the claim says every 1-to-4-byte remaining-length varint decodes
without error, up to 268,435,455.  The bytes `80 80 80 01` are the
minimum-length encoding of 2,097,152 ≤ 268,435,455, yet the decoder throws
`remaining_length_error` on the 4th byte (its multiplier bound at
endpoint.hpp:893 is `128 * 128 * 128`). -/
theorem claim_C2_bug :
    remaining_bytes 2097152 = [128, 128, 128, 1] ∧
    2097152 ≤ 268435455 ∧
    handle_remaining_length 0 1 [128, 128, 128, 1] =
      Except.error HandlerErr.remainingLengthError :=
  ⟨rfl, by omega, rfl⟩

/-- C3: the claim says decode ∘ encode is the identity, in particular for
CONNECT with a will.  Encoding a CONNECT (clean session, client id `"a"`,
will topic `"t"`, will message `"mm"`) with `send_connect` produces a
well-formed frame whose body starts with the exact protocol-name/level
bytes, yet `handle_connect` rejects it with `protocol_error` instead of
returning the encoded fields. -/
theorem claim_C3_bug :
    send_connect
      { endpoint0 with
          clean_session := true
          client_id := [97]
          will_ := some ⟨[116], [109, 109], false, 0⟩ } 0 =
      Except.ok
        { endpoint0 with
            clean_session := true
            client_id := [97]
            will_ := some ⟨[116], [109, 109], false, 0⟩
            wire := [[16, 20, 0, 4, 77, 81, 84, 84, 4, 6, 0, 0,
              0, 1, 97, 0, 1, 116, 0, 2, 109, 109]] } ∧
    handle_connect 20
        [0, 4, 77, 81, 84, 84, 4, 6, 0, 0, 0, 1, 97, 0, 1, 116, 0, 2, 109, 109] =
      Except.error HandlerErr.protocolError :=
  ⟨rfl, rfl⟩

/-- C7: the claim says every non-PUBLISH packet other than
PUBREL/SUBSCRIBE/UNSUBSCRIBE is emitted with fixed-header low nibble
`0000`.  `send_unsuback` (endpoint.hpp:1462) passes flags `0b0010`, so the
UNSUBACK frame for packet id 1 starts with byte `0xB2`, whose low nibble is
`0010`, not `0000`. -/
theorem claim_C7_bug :
    unsuback_frame 1 = [0xB2, 2, 0, 1] ∧
    (unsuback_frame 1).headD 0 &&& 0b1111 = 0b0010 :=
  ⟨rfl, rfl⟩

/-- C4 counterexample: the claim says a QoS 2 PUBLISH whose packet id was
already received (and not yet released) is not delivered to the publish
handler again.  Feeding the same QoS 2 PUBLISH (packet id 7) twice, with no
PUBREL in between, invokes the handler twice — the code keeps no set of
received QoS 2 ids. -/
theorem claim_C4_cex :
    (run_receiver endpoint0
        [RecvEvent.publishQos2 7 [116] [99],
         RecvEvent.publishQos2 7 [116] [99]]).map
      (fun e =>
        ((e.h_publish_log.filter (fun a => a.packet_id == some 7)).length,
          e.wire)) =
    Except.ok (2, [pubrec_frame 7, pubrec_frame 7]) :=
  rfl

/-- C9 counterexample: the claim says the keep-alive timer is reset after
each outbound packet.  With ping interval 5 and the timer armed to fire at
time 5, sending a PUBLISH at time 3 leaves the deadline at 5 instead of
resetting it to 3 + 5: no send path of the endpoint touches the client's
timer. -/
theorem claim_C9_cex :
    (client_send
        { connected := true, keep_alive_sec := 10, ping_duration_ms := 5,
          tim := some 5, now := 3, wire := [] }
        (publish_frame false [116] 0 false 0 [104, 105])).tim = some 5 ∧
    (5 : Nat) ≠ 3 + 5 :=
  ⟨rfl, by omega⟩

/-- C9 (amended): with a nonzero ping interval configured on a connected
client, each expiry of the keep-alive timer emits exactly one PINGREQ and
re-arms the timer for the same interval; the timer is NOT reset by outbound
packets — an outbound send appends its frame to the wire and leaves the
armed deadline unchanged, so PINGREQ is emitted at every interval expiry
regardless of outbound traffic. -/
theorem claim_C9_amended :
    (∀ c : client, c.ping_duration_ms ≠ 0 → c.connected = true →
      handle_timer c false =
        { c with
            wire := c.wire ++ [pingreq_frame]
            tim := some (c.now + c.ping_duration_ms) }) ∧
    (∀ (c : client) (frame : List Nat),
      (client_send c frame).tim = c.tim ∧
      (client_send c frame).wire = c.wire ++ [frame]) :=
  ⟨fun c _ _ => rfl, fun c frame => ⟨rfl, rfl⟩⟩

theorem claim_C9_amended_witness :
    handle_timer
        { connected := true, keep_alive_sec := 10, ping_duration_ms := 5,
          tim := some 12, now := 7, wire := [] } false =
      { connected := true, keep_alive_sec := 10, ping_duration_ms := 5,
        tim := some (7 + 5), now := 7, wire := [] ++ [pingreq_frame] } :=
  claim_C9_amended.1
    { connected := true, keep_alive_sec := 10, ping_duration_ms := 5,
      tim := some 12, now := 7, wire := [] }
    (by decide) rfl

/-- C6: every id the automatic allocator returns is nonzero and absent from
the in-flight store at the moment of allocation, and every manual-packet-id
operation (publish, subscribe, unsubscribe) refuses — returning `false` and
sending nothing — when the id is 0 or already present in the store. -/
theorem claim_C6 :
    (∀ (st : mi_store) (master id : Nat),
        create_unique_packet_id st master = some id →
        id ≠ 0 ∧ ∀ x ∈ st, x.packet_id ≠ id) ∧
    (∀ (e : endpoint) (packet_id : Nat),
        (packet_id = 0 ∨ ∃ x ∈ e.store, x.packet_id = packet_id) →
        (∀ topic_name contents q retain,
            publish_manual e packet_id topic_name contents q retain =
              Except.ok (false, e)) ∧
        (∀ params, subscribe_manual e packet_id params =
            Except.ok (false, e)) ∧
        (∀ params, unsubscribe_manual e packet_id params =
            Except.ok (false, e))) := by
  constructor
  · intro st master id h
    exact (is_unique_packet_id_iff st id).mp (create_loop_sound st 65536 master id h)
  · intro e packet_id h
    have hfalse : is_unique_packet_id e.store packet_id = false := by
      rw [Bool.eq_false_iff]
      intro htrue
      obtain ⟨hne, habs⟩ := (is_unique_packet_id_iff e.store packet_id).mp htrue
      rcases h with h0 | ⟨x, hx, hpid⟩
      · exact hne h0
      · exact habs x hx hpid
    refine ⟨fun topic_name contents q retain => ?_, fun params => ?_,
      fun params => ?_⟩
    · rw [publish_manual, if_neg (by simp [hfalse])]
    · rw [subscribe_manual, if_neg (by simp [hfalse])]
    · rw [unsubscribe_manual, if_neg (by simp [hfalse])]

theorem claim_C6_witness :
    ((1 : Nat) ≠ 0 ∧ ∀ x ∈ ([] : mi_store), x.packet_id ≠ 1) ∧
    publish_manual { endpoint0 with store := [⟨5, 4, none⟩] } 5 [116] [104] 1
        false =
      Except.ok (false, { endpoint0 with store := [⟨5, 4, none⟩] }) ∧
    subscribe_manual { endpoint0 with store := [⟨5, 4, none⟩] } 0 [] =
      Except.ok (false, { endpoint0 with store := [⟨5, 4, none⟩] }) :=
  ⟨claim_C6.1 [] 0 1 rfl,
   (claim_C6.2 { endpoint0 with store := [⟨5, 4, none⟩] } 5
      (Or.inr ⟨⟨5, 4, none⟩, by simp, rfl⟩)).1 [116] [104] 1 false,
   ((claim_C6.2 { endpoint0 with store := [⟨5, 4, none⟩] } 0
      (Or.inl rfl)).2).1 []⟩

/-- C10 (implicit): `create_unique_packet_id` terminates with a fresh id for
every store in which at least one nonzero 16-bit id is unused — one sweep of
65536 increments suffices — and when every nonzero 16-bit id is in flight
the loop never terminates: it yields no id for any amount of fuel. -/
theorem claim_C10 :
    (∀ (st : mi_store) (master : Nat),
        (∃ id, id ≠ 0 ∧ id < 65536 ∧ ∀ x ∈ st, x.packet_id ≠ id) →
        (create_unique_packet_id st master).isSome = true) ∧
    (∀ (st : mi_store) (master fuel : Nat),
        (∀ id, id ≠ 0 → id < 65536 → ∃ x ∈ st, x.packet_id = id) →
        create_loop st master fuel = none) := by
  constructor
  · intro st master h
    obtain ⟨id, h0, hlt, habs⟩ := h
    have hu : is_unique_packet_id st id = true :=
      (is_unique_packet_id_iff st id).mpr ⟨h0, habs⟩
    refine create_loop_finds st 65536 master
      (if master % 65536 < id then id - master % 65536
        else id + 65536 - master % 65536) ?_ ?_ ?_
    · split <;> omega
    · split <;> omega
    · have harith : (master +
          (if master % 65536 < id then id - master % 65536
            else id + 65536 - master % 65536)) % 65536 = id := by
        split <;> omega
      rw [harith]
      exact hu
  · intro st master fuel h
    induction fuel generalizing master with
    | zero => rfl
    | succ n ih =>
      rw [create_loop]
      have hfalse : is_unique_packet_id st ((master + 1) % 65536) = false := by
        by_cases hz : (master + 1) % 65536 = 0
        · rw [is_unique_packet_id, if_pos hz]
        · rw [Bool.eq_false_iff]
          intro htrue
          obtain ⟨_, habs⟩ :=
            (is_unique_packet_id_iff st ((master + 1) % 65536)).mp htrue
          obtain ⟨x, hx, hpid⟩ := h ((master + 1) % 65536) hz
            (Nat.mod_lt _ (by omega))
          exact habs x hx hpid
      rw [if_neg (by simp [hfalse])]
      exact ih ((master + 1) % 65536)

theorem claim_C10_witness :
    (create_unique_packet_id [⟨1, 4, none⟩] 0).isSome = true ∧
    create_loop full_store 0 1 = none :=
  ⟨claim_C10.1 [⟨1, 4, none⟩] 0 ⟨2, by decide, by decide, by decide⟩,
   claim_C10.2 full_store 0 1
    (fun id h1 h2 =>
      ⟨⟨id, 0, none⟩,
        by
          rw [full_store, List.mem_map]
          exact ⟨id, by rw [List.mem_range']; exact ⟨id - 1, by omega, by omega⟩,
            rfl⟩,
        rfl⟩)⟩

/-- C5: for a QoS 2 publish sent with packet id P (fresh in the store), the
endpoint first stores an in-flight entry for P expecting PUBREC (the stored
copy being the DUP frame); receiving PUBREC(P) erases that entry, sends
PUBREL(P) and stores an entry for P expecting PUBCOMP; receiving PUBCOMP(P)
erases that entry and invokes the pubcomp handler, leaving no in-flight
entry for P. -/
theorem claim_C5 (e : endpoint) (packet_id : Nat)
    (topic_name payload : List Nat)
    (hlen : utf8string.is_valid_length topic_name = true)
    (hcont : utf8string.is_valid_contents topic_name = true)
    (hpid : packet_id < 65536)
    (hfree : ∀ x ∈ e.store, x.packet_id ≠ packet_id) :
    ∃ e1 e2 e3,
      send_publish e topic_name qos.exactly_once false packet_id payload =
        Except.ok e1 ∧
      entriesFor e1.store packet_id =
        [⟨packet_id, control_packet_type.pubrec,
          some (publish_frame true topic_name qos.exactly_once false
            packet_id payload)⟩] ∧
      handle_pubrec e1 2 (packet_id_bytes packet_id) = Except.ok e2 ∧
      e2.wire = e1.wire ++ [pubrel_frame packet_id] ∧
      entriesFor e2.store packet_id =
        [⟨packet_id, control_packet_type.pubcomp,
          some (pubrel_frame packet_id)⟩] ∧
      handle_pubcomp e2 2 (packet_id_bytes packet_id) = Except.ok e3 ∧
      entriesFor e3.store packet_id = [] ∧
      e3.h_pubcomp_log = e2.h_pubcomp_log ++ [packet_id] := by
  have hemp1 : mi_emplace e.store
      ⟨packet_id, control_packet_type.pubrec,
        some (publish_frame true topic_name qos.exactly_once false packet_id
          payload)⟩ =
      e.store ++ [⟨packet_id, control_packet_type.pubrec,
        some (publish_frame true topic_name qos.exactly_once false packet_id
          payload)⟩] :=
    mi_emplace_of_fresh _ _ hfree
  have hemp2 : mi_emplace e.store
      ⟨packet_id, control_packet_type.pubcomp, some (pubrel_frame packet_id)⟩ =
      e.store ++ [⟨packet_id, control_packet_type.pubcomp,
        some (pubrel_frame packet_id)⟩] :=
    mi_emplace_of_fresh _ _ hfree
  have hers : mi_erase_key e.store packet_id control_packet_type.pubrec =
      e.store := mi_erase_key_of_fresh _ _ _ hfree
  have hers2 : mi_erase_key e.store packet_id control_packet_type.pubcomp =
      e.store := mi_erase_key_of_fresh _ _ _ hfree
  have hpidbytes := make_uint16_t_packet_id_bytes packet_id hpid
  refine ⟨{ e with
      wire := e.wire ++ [publish_frame false topic_name qos.exactly_once false
        packet_id payload]
      store := e.store ++ [⟨packet_id, control_packet_type.pubrec,
        some (publish_frame true topic_name qos.exactly_once false packet_id
          payload)⟩] },
    { e with
      wire := e.wire ++ [publish_frame false topic_name qos.exactly_once false
        packet_id payload] ++ [pubrel_frame packet_id]
      store := e.store ++ [⟨packet_id, control_packet_type.pubcomp,
        some (pubrel_frame packet_id)⟩]
      h_pubrec_log := e.h_pubrec_log ++ [packet_id] },
    { e with
      wire := e.wire ++ [publish_frame false topic_name qos.exactly_once false
        packet_id payload] ++ [pubrel_frame packet_id]
      h_pubrec_log := e.h_pubrec_log ++ [packet_id]
      h_pubcomp_log := e.h_pubcomp_log ++ [packet_id] },
    ?_, ?_, ?_, ?_, ?_, ?_, ?_, ?_⟩
  · simp only [send_publish, hlen, hcont, Bool.not_true, Bool.false_eq_true,
      if_false, not_false_eq_true, ite_not]
    rw [if_pos (by decide : 0 < qos.exactly_once),
      if_neg (by decide : ¬ qos.exactly_once = qos.at_least_once), hemp1]
    simp
  · rw [entriesFor_append, entriesFor_eq_nil e.store packet_id hfree]
    simp [entriesFor]
  · simp only [handle_pubrec, send_pubrel]
    rw [if_neg (by omega), hpidbytes]
    simp only [mi_erase_key_append, hers]
    have hkill : mi_erase_key
        [(⟨packet_id, control_packet_type.pubrec,
          some (publish_frame true topic_name qos.exactly_once false packet_id
            payload)⟩ : store)] packet_id control_packet_type.pubrec = [] := by
      simp [mi_erase_key]
    rw [hkill, List.append_nil, hemp2]
  · rfl
  · rw [entriesFor_append, entriesFor_eq_nil e.store packet_id hfree]
    simp [entriesFor]
  · simp only [handle_pubcomp]
    rw [if_neg (by omega), hpidbytes]
    simp only [mi_erase_key_append, hers2]
    have hkill : mi_erase_key
        [(⟨packet_id, control_packet_type.pubcomp,
          some (pubrel_frame packet_id)⟩ : store)] packet_id
          control_packet_type.pubcomp = [] := by
      simp [mi_erase_key]
    rw [hkill, List.append_nil]
  · exact entriesFor_eq_nil e.store packet_id hfree
  · rfl

theorem claim_C5_witness :
    ∃ e1 e2 e3,
      send_publish endpoint0 [116] qos.exactly_once false 3 [104] =
        Except.ok e1 ∧
      entriesFor e1.store 3 =
        [⟨3, control_packet_type.pubrec,
          some (publish_frame true [116] qos.exactly_once false 3 [104])⟩] ∧
      handle_pubrec e1 2 (packet_id_bytes 3) = Except.ok e2 ∧
      e2.wire = e1.wire ++ [pubrel_frame 3] ∧
      entriesFor e2.store 3 =
        [⟨3, control_packet_type.pubcomp, some (pubrel_frame 3)⟩] ∧
      handle_pubcomp e2 2 (packet_id_bytes 3) = Except.ok e3 ∧
      entriesFor e3.store 3 = [] ∧
      e3.h_pubcomp_log = e2.h_pubcomp_log ++ [3] :=
  claim_C5 endpoint0 3 [116] [104] (by decide) (by decide) (by decide)
    (by decide)

/-- C8: on CONNACK with return code accepted, a clean-session endpoint
empties its in-flight store and rewrites nothing; otherwise every stored
entry holding bytes is rewritten to the stream in its original insertion
order and every entry without bytes is erased.  The stored copy of a QoS > 0
PUBLISH is the frame with the DUP bit set, and the stored copy of a PUBREL
is exactly the frame that was written. -/
theorem claim_C8 :
    (∀ (e : endpoint) (sp : Nat), e.clean_session = true →
        handle_connack e 2 [sp, 0] =
          Except.ok { e with
            store := []
            h_connack_log := e.h_connack_log ++
              [(is_session_present sp, 0)] }) ∧
    (∀ (e : endpoint) (sp : Nat), e.clean_session = false →
        handle_connack e 2 [sp, 0] =
          Except.ok { e with
            wire := e.wire ++ e.store.filterMap (fun s => s.buf)
            store := e.store.filter (fun s => s.buf.isSome)
            h_connack_log := e.h_connack_log ++
              [(is_session_present sp, 0)] }) ∧
    (∀ (e e1 : endpoint) (topic_name payload : List Nat) (q : Nat)
        (retain : Bool) (packet_id : Nat), 0 < q →
        send_publish e topic_name q retain packet_id payload = Except.ok e1 →
        e1.wire = e.wire ++
          [publish_frame false topic_name q retain packet_id payload] ∧
        e1.store = mi_emplace e.store
          ⟨packet_id,
            if q = qos.at_least_once then control_packet_type.puback
            else control_packet_type.pubrec,
            some (publish_frame true topic_name q retain packet_id payload)⟩ ∧
        publish.is_dup
          ((publish_frame true topic_name q retain packet_id
            payload).headD 0) = true) ∧
    (∀ (e : endpoint) (packet_id : Nat),
        (send_pubrel e packet_id).store =
          mi_emplace e.store
            ⟨packet_id, control_packet_type.pubcomp,
              some (pubrel_frame packet_id)⟩ ∧
        (send_pubrel e packet_id).wire =
          e.wire ++ [pubrel_frame packet_id]) := by
  refine ⟨fun e sp h => ?_, fun e sp h => ?_,
    fun e e1 topic_name payload q retain packet_id hq hsend => ?_,
    fun e packet_id => ⟨rfl, rfl⟩⟩
  · simp [handle_connack, h, connect_return_code.accepted]
  · simp [handle_connack, h, connect_return_code.accepted]
  · have hv1 : utf8string.is_valid_length topic_name = true := by
      by_contra hv
      rw [send_publish, if_pos hv] at hsend
      cases hsend
    have hv2 : utf8string.is_valid_contents topic_name = true := by
      by_contra hv
      rw [send_publish, if_neg (by simp [hv1]), if_pos hv] at hsend
      cases hsend
    simp only [send_publish, hv1, hv2, Bool.not_true, Bool.false_eq_true,
      not_false_eq_true, if_false, ite_false] at hsend
    rw [if_pos hq] at hsend
    cases hsend
    refine ⟨by rfl, by rfl, ?_⟩
    simp only [publish_frame, finalize, List.headD_cons, publish.is_dup,
      make_fixed_header, Nat.testBit_lor, if_true]
    have h8 : Nat.testBit 8 3 = true := rfl
    simp [h8]

theorem claim_C8_witness :
    handle_connack
        { endpoint0 with
            clean_session := true
            store := [⟨1, control_packet_type.puback, some (puback_frame 1)⟩] }
        2 [1, 0] =
      Except.ok { endpoint0 with
        clean_session := true
        store := []
        h_connack_log := [(is_session_present 1, 0)] } ∧
    handle_connack
        { endpoint0 with
            store := [⟨1, control_packet_type.puback, some (puback_frame 1)⟩,
              ⟨2, control_packet_type.suback, none⟩] }
        2 [0, 0] =
      Except.ok { endpoint0 with
        wire := [puback_frame 1]
        store := [⟨1, control_packet_type.puback, some (puback_frame 1)⟩]
        h_connack_log := [(is_session_present 0, 0)] } ∧
    ({ endpoint0 with
        wire := [publish_frame false [116] 1 false 3 [104]]
        store := [⟨3, control_packet_type.puback,
          some (publish_frame true [116] 1 false 3 [104])⟩] } : endpoint).wire =
      endpoint0.wire ++ [publish_frame false [116] 1 false 3 [104]] ∧
    publish.is_dup ((publish_frame true [116] 1 false 3 [104]).headD 0) =
      true ∧
    (send_pubrel endpoint0 9).wire = endpoint0.wire ++ [pubrel_frame 9] := by
  have h3 := claim_C8.2.2.1 endpoint0
    ({ endpoint0 with
        wire := [publish_frame false [116] 1 false 3 [104]]
        store := [⟨3, control_packet_type.puback,
          some (publish_frame true [116] 1 false 3 [104])⟩] })
    [116] [104] 1 false 3 (by decide) rfl
  have h1 := claim_C8.1
    ({ endpoint0 with
        clean_session := true
        store := [⟨1, control_packet_type.puback, some (puback_frame 1)⟩] })
    1 rfl
  have h2 := claim_C8.2.1
    ({ endpoint0 with
        store := [⟨1, control_packet_type.puback, some (puback_frame 1)⟩,
          ⟨2, control_packet_type.suback, none⟩] })
    0 rfl
  exact ⟨by simpa using h1, by simpa using h2, h3.1, h3.2.2,
    (claim_C8.2.2.2 endpoint0 9).2⟩

/-- C4 (amended): the endpoint keeps no set of received QoS 2 packet ids.
For every sequence of received QoS 2 PUBLISH and PUBREL frames, every QoS 2
PUBLISH — duplicate id or not — is delivered to the publish handler again
and answered with a PUBREC, and every PUBREL is answered with a PUBCOMP; so
the handler is invoked once per receipt of id P, not at most once per P. -/
theorem claim_C4 (evs : List RecvEvent) :
    ∀ e : endpoint, (∀ ev ∈ evs, ev.wf) →
      run_receiver e evs =
        Except.ok { e with
          wire := e.wire ++ evs.map replyOf
          h_publish_log := e.h_publish_log ++ evs.filterMap deliveryOf } := by
  induction evs with
  | nil =>
    intro e _
    simp [run_receiver]
  | cons ev rest ih =>
    intro e h
    have hrest : ∀ ev2 ∈ rest, ev2.wf := fun ev2 hm =>
      h ev2 (List.mem_cons_of_mem _ hm)
    cases ev with
    | publishQos2 packet_id topic_name contents =>
      obtain ⟨hpid, htop⟩ : packet_id < 65536 ∧ topic_name.length < 65536 :=
        h _ (List.mem_cons_self _ _)
      rw [run_receiver]
      simp only [recv_frame]
      rw [show handle_payload e
          (make_fixed_header control_packet_type.publish
            (qos.exactly_once <<< 1))
          (encoded_length topic_name ++ topic_name ++
            packet_id_bytes packet_id ++ contents).length
          (encoded_length topic_name ++ topic_name ++
            packet_id_bytes packet_id ++ contents) =
          handle_publish e
            (make_fixed_header control_packet_type.publish
              (qos.exactly_once <<< 1))
            (encoded_length topic_name ++ topic_name ++
              packet_id_bytes packet_id ++ contents).length
            (encoded_length topic_name ++ topic_name ++
              packet_id_bytes packet_id ++ contents) from rfl]
      rw [handle_publish_qos2 e packet_id topic_name contents hpid htop]
      dsimp only
      rw [ih _ hrest]
      simp [replyOf, deliveryOf, List.append_assoc]
    | pubrel packet_id =>
      have hpid : packet_id < 65536 := h _ (List.mem_cons_self _ _)
      rw [run_receiver]
      simp only [recv_frame]
      rw [show handle_payload e
          (make_fixed_header control_packet_type.pubrel 0b0010) 2
          (packet_id_bytes packet_id) =
          handle_pubrel e 2 (packet_id_bytes packet_id) from rfl]
      rw [handle_pubrel_pubcomp e packet_id hpid]
      dsimp only
      rw [ih _ hrest]
      simp [replyOf, deliveryOf, List.append_assoc]

theorem claim_C4_witness :
    run_receiver endpoint0
        [RecvEvent.publishQos2 3 [116] [104], RecvEvent.pubrel 3] =
      Except.ok { endpoint0 with
        wire := [pubrec_frame 3, pubcomp_frame 3]
        h_publish_log :=
          [⟨make_fixed_header control_packet_type.publish
              (qos.exactly_once <<< 1), some 3, [116], [104]⟩] } := by
  have h := claim_C4 [RecvEvent.publishQos2 3 [116] [104], RecvEvent.pubrel 3]
    endpoint0 (by decide)
  simpa using h

end Mqtt
